import Mathlib

/-!
Shallow embedding of the MaxScale read/write-split router's statement-routing
module (`rwsplit_route_stmt.cc`) and the session-command bookkeeping it drives.
Pure functions of the source are translated directly; stateful code is modelled
by explicit state passing over a `RWSplitSession` record.  Helper routines that
are declared elsewhere in the repository (backend primitives, query-classifier
constants, `get_root_master`, ...) are modelled from the specification and are
marked as such in their doc comments.
-/

namespace MaxScale

/-- Modelled from the spec: MySQL packet framing constants (spec section 6,
"4-byte header (3-byte little-endian length, 1-byte sequence id)"); the
maximum payload of one wire packet is 2^24 - 1 bytes. -/
def MYSQL_HEADER_LEN : Nat := 4

/-- Modelled from the spec: the maximum payload length of one MySQL wire
packet, 2^24 - 1 bytes (spec sections 4.5 and 8, "2^24 - 1 + header"). -/
def GW_MYSQL_MAX_PACKET_LEN : Nat := 2 ^ 24 - 1

/-- Modelled from the spec: sentinel for an unset maximum replication lag;
spec section 6 says `max_slave_replication_lag` is "unlimited when negative". -/
def MAX_RLAG_UNDEFINED : Int := -2

/-- Modelled from the spec: sentinel replication-lag value of a server whose
lag the monitor has not measured. -/
def MAX_RLAG_NOT_AVAILABLE : Int := -1

/-- Modelled from the spec: MySQL command byte of COM_QUIT. -/
def MXS_COM_QUIT : Nat := 1

/-- Modelled from the spec: MySQL command byte of COM_QUERY. -/
def MXS_COM_QUERY : Nat := 3

/-- Modelled from the spec: MySQL command byte of COM_STMT_PREPARE (0x16). -/
def MXS_COM_STMT_PREPARE : Nat := 22

/-- Modelled from the spec: MySQL command byte of COM_STMT_EXECUTE (0x17). -/
def MXS_COM_STMT_EXECUTE : Nat := 23

/-- Modelled from the spec: MySQL command byte of COM_STMT_SEND_LONG_DATA (0x18). -/
def MXS_COM_STMT_SEND_LONG_DATA : Nat := 24

/-- Modelled from the spec: MySQL command byte of COM_STMT_CLOSE (0x19). -/
def MXS_COM_STMT_CLOSE : Nat := 25

/-- Modelled from the spec: MySQL command byte of COM_STMT_RESET (0x1a). -/
def MXS_COM_STMT_RESET : Nat := 26

/-- Modelled from the spec: MySQL command byte of COM_STMT_FETCH (0x1c). -/
def MXS_COM_STMT_FETCH : Nat := 28

/-- Modelled from the spec: `mxs_mysql_is_ps_command` (declared outside these
sources) recognises the binary prepared-statement commands that carry a
statement id. -/
def mxs_mysql_is_ps_command (cmd : Nat) : Bool :=
  cmd == MXS_COM_STMT_EXECUTE || cmd == MXS_COM_STMT_SEND_LONG_DATA ||
  cmd == MXS_COM_STMT_CLOSE || cmd == MXS_COM_STMT_RESET ||
  cmd == MXS_COM_STMT_FETCH

/-- Modelled from the spec: `mxs_mysql_command_will_respond` (declared outside
these sources); spec section 3 gives every SessionCommand an
"expected-response flag".  COM_STMT_SEND_LONG_DATA, COM_QUIT and
COM_STMT_CLOSE generate no response. -/
def mxs_mysql_command_will_respond (cmd : Nat) : Bool :=
  cmd != MXS_COM_STMT_SEND_LONG_DATA && cmd != MXS_COM_QUIT &&
  cmd != MXS_COM_STMT_CLOSE

/-- Routing hint attached to a packet (spec section 6): either `route to
server <name>`, `max_slave_replication_lag=<int>`, or an unrecognised kind. -/
inductive MXSHint where
  | routeToNamed (name : String)
  | paramMaxRlag (val : Int)
  | otherKind
deriving Repr, DecidableEq

/-- One client protocol packet (GWBUF).  `length` is the wire length, header
included; `command` is the command byte; `payload` abstracts the textual
payload; `ps_id` is the binary prepared-statement id carried in the packet;
`causal_prefixed` records that `add_prefix_wait_gtid` rewrote the packet. -/
structure GWBUF where
  length : Nat
  command : Nat
  payload : String
  ps_id : Nat
  hints : List MXSHint
  causal_prefixed : Bool
deriving Repr, DecidableEq

/-- One entry of the session command log: a monotonically increasing position,
the command byte and the textual payload of the packet. -/
structure SessionCommand where
  position : Nat
  command : Nat
  payload : String
deriving Repr, DecidableEq

/-- Modelled from the spec: the equality used through `mxs::equal_pointees` on
shared SessionCommand handles ("textually equivalent" in spec section 4.2).
Two session commands are equal when their packets carry the same command byte
and the same textual payload. -/
def sc_eq (a b : SessionCommand) : Bool :=
  a.command == b.command && a.payload == b.payload

/-- Reply state of a backend connection (spec section 4.1). -/
inductive ReplyState where
  | idle
  | start
  | more
  | done
deriving Repr, DecidableEq

/-- One backend connection with its per-session state (spec section 3,
"Backend").  The environment-controlled outcomes of connecting, executing a
session command and writing a packet are exposed as the booleans
`connect_ok`, `exec_ok` and `write_ok`; `written` records the packets the
router wrote to this backend. -/
structure RWBackend where
  id : Nat
  bname : String
  in_use : Bool
  closed : Bool
  can_connect : Bool
  status_master : Bool
  status_slave : Bool
  status_relay : Bool
  rlag : Int
  sescmds : List SessionCommand
  reply_state : ReplyState
  written : List GWBUF
  waiting_result : Bool
  connect_ok : Bool
  exec_ok : Bool
  write_ok : Bool
deriving Repr, DecidableEq

instance : Inhabited RWBackend :=
  ⟨{ id := 0, bname := "", in_use := false, closed := false, can_connect := false,
     status_master := false, status_slave := false, status_relay := false,
     rlag := MAX_RLAG_NOT_AVAILABLE, sescmds := [], reply_state := ReplyState.done,
     written := [], waiting_result := false, connect_ok := false, exec_ok := false,
     write_ok := false }⟩

/-- Pending session commands of a backend: `Backend::have_session_commands`. -/
def have_session_commands (b : RWBackend) : Bool :=
  !b.sescmds.isEmpty

/-- Backend close: the connection is torn down and the backend leaves use. -/
def closeB (b : RWBackend) : RWBackend :=
  { b with in_use := false, closed := true }

/-- The `master_failure_mode` configuration values (spec section 4.4). -/
inductive FailureMode where
  | fail_instantly
  | error_on_write
  | fail_on_write
deriving Repr, DecidableEq

/-- Router-session configuration options used by the routing module
(spec section 6). -/
structure Config where
  disable_sescmd_history : Bool
  max_sescmd_history : Nat
  master_reconnection : Bool
  master_accept_reads : Bool
  master_failure_mode : FailureMode
  retry_failed_reads : Bool
  strict_multi_stmt : Bool
  strict_sp_calls : Bool
  connection_keepalive : Nat
  max_slave_replication_lag : Int
  max_slave_count : Nat
  enable_causal_read : Bool
deriving Repr, DecidableEq

/-- LOAD DATA LOCAL INFILE progress of the session. -/
inductive LoadDataState where
  | inactive
  | ld_start
  | active
  | ld_end
deriving Repr, DecidableEq

/-- Causal-read wait state of the session. -/
inductive WaitGtidState where
  | expecting_nothing
  | expecting_wait_gtid_result
deriving Repr, DecidableEq

/-- The read/write-split router session (spec section 3, "RouterSession").
Backends are referenced by their `id`; `current_master`, `target_node`,
`prev_target` and the `exec_map` hold backend ids (the C++ shared-pointer
identity).  `client_write_ok` is the environment-controlled outcome of
writing an error packet to the client, `trx_*` mirror the transaction state
the protocol layer maintains on the client session. -/
structure RWSplitSession where
  backends : List RWBackend
  current_master : Option Nat
  target_node : Option Nat
  prev_target : Option Nat
  large_query : Bool
  exec_map : List (Nat × Nat)
  query_queue : List GWBUF
  expected_responses : Nat
  sescmd_count : Nat
  sent_sescmd : Nat
  recv_sescmd : Nat
  sescmd_list : List SessionCommand
  sescmd_responses : List (Nat × Nat)
  rses_config : Config
  gtid_pos : String
  load_data_state : LoadDataState
  wait_gtid_state : WaitGtidState
  trx_active : Bool
  trx_read_only : Bool
  trx_ending : Bool
  have_tmp_tables : Bool
  temp_tables : List String
  ps_store : List (Nat × GWBUF)
  stored_stmt : Option GWBUF
  client_write_ok : Bool
deriving Repr, DecidableEq

/-- Fetch the backend with the given id (the dereference of an SRWBackend). -/
def lookupB (s : RWSplitSession) (i : Nat) : RWBackend :=
  (s.backends.find? (fun b => b.id == i)).getD default

/-- Apply an update to the backend with the given id (a mutation through the
shared SRWBackend handle is visible in the session's backend list). -/
def updateB (s : RWSplitSession) (i : Nat) (f : RWBackend → RWBackend) :
    RWSplitSession :=
  { s with backends := s.backends.map (fun b => if b.id == i then f b else b) }

/-- Modelled from the spec: `locked_to_master` (declared outside these
sources); glossary "Locked-to-master: a session mode ... that forces all
subsequent statements onto the primary".  The mechanism visible in
`route_single_stmt` is the forced target node coinciding with the current
master. -/
def locked_to_master (s : RWSplitSession) : Bool :=
  s.current_master.isSome && s.target_node == s.current_master

/-- The classification of one statement handed to `route_single_stmt`:
a decoded `route_target_t` bitmask. -/
structure RouteTarget where
  is_master : Bool
  is_slave : Bool
  is_named_server : Bool
  is_all : Bool
  is_rlag_max : Bool
deriving Repr, DecidableEq

/-- Query-classifier type bits of the statement that matter to this module. -/
structure TypeMask where
  prepare_named_stmt : Bool
  prepare_stmt : Bool
deriving Repr, DecidableEq

/-- The `RouteInfo` a classified packet carries into `route_single_stmt`. -/
structure RouteInfo where
  stmt_id : Nat
  command : Nat
  qtype : TypeMask
  target : RouteTarget
deriving Repr, DecidableEq

/-- Backend type searched by `get_target_backend`. -/
inductive BackendType where
  | be_master
  | be_slave
deriving Repr, DecidableEq

/-! ## Session command purge (`RWSplitSession::purge_history`) -/

/-- Erase the first element equal (under `sc_eq`) to `c`, returning the new
list and the position of the erased command (used to drop its stored
response).  This is the `sescmd_list.erase(second)` step of `purge_history`. -/
def eraseFirstEq (c : SessionCommand) :
    List SessionCommand → List SessionCommand × Option Nat
  | [] => ([], none)
  | x :: xs =>
    if sc_eq x c then (xs, some x.position)
    else
      let r := eraseFirstEq c xs
      (x :: r.1, r.2)

/-- Scan for the first command equal to `c`; when found, erase the next equal
command after it (the "middle" duplicate), keeping the first occurrence.
Mirrors the two `std::find_if` calls of `purge_history`. -/
def purgeGo (c : SessionCommand) :
    List SessionCommand → List SessionCommand × Option Nat
  | [] => ([], none)
  | x :: xs =>
    if sc_eq x c then
      let r := eraseFirstEq c xs
      (x :: r.1, r.2)
    else
      let r := purgeGo c xs
      (x :: r.1, r.2)

/-- `RWSplitSession::purge_history`: COM_STMT_PREPARE commands are exempt
("As the PS handles map to explicit IDs, we must retain all COM_STMT_PREPARE
commands"); otherwise, if a command equal to the new one exists and a second
equal command exists after it, the second one is erased.  Returns the purged
list and the position whose stored response must be dropped. -/
def purge_history (l : List SessionCommand) (c : SessionCommand) :
    List SessionCommand × Option Nat :=
  if c.command == MXS_COM_STMT_PREPARE then (l, none)
  else purgeGo c l

/-- The history-retained append of `route_session_write`: purge duplicates of
the new command, then push it at the back of the log. -/
def appendPurge (l : List SessionCommand) (c : SessionCommand) :
    List SessionCommand :=
  (purge_history l c).1 ++ [c]

/-- The pruning law exactly as the spec states it (section 8): for any two
retained session commands with equal textual payload, no third command with
that payload exists between them. -/
def purge_law (l : List SessionCommand) : Prop :=
  ∀ l₁ a l₂ b l₃ c l₄, l = l₁ ++ a :: (l₂ ++ b :: (l₃ ++ c :: l₄)) →
    sc_eq a c = true → sc_eq a b = false

/-- Bounded-duplication invariant of the session command log: every retained
command that is not a COM_STMT_PREPARE has at most two equal copies in the
log. -/
def dupBound (l : List SessionCommand) : Prop :=
  ∀ c ∈ l, c.command ≠ MXS_COM_STMT_PREPARE →
    l.countP (fun x => sc_eq x c) ≤ 2

/-! ## Session writes (`RWSplitSession::route_session_write`) -/

/-- The broadcast loop of `route_session_write`: for every in-use backend the
new command is appended to the backend's session-command queue
(`append_session_command`), the position of the backend's next pending
command (`next_session_command()->get_position()`) lowers the running
`lowest_pos`, and `execute_session_command` (success given by the backend's
`exec_ok` environment bit) bumps `nsucc`.  Returns the updated backends,
`lowest_pos` and `nsucc`. -/
def broadcastGo (cmd : SessionCommand) :
    List RWBackend → Nat → Nat → List RWBackend × Nat × Nat
  | [], lowest, nsucc => ([], lowest, nsucc)
  | b :: bs, lowest, nsucc =>
    if b.in_use then
      let q := b.sescmds ++ [cmd]
      let current_pos := match q with
        | x :: _ => x.position
        | [] => 0
      let lowest' := if current_pos < lowest then current_pos else lowest
      let nsucc' := if b.exec_ok then nsucc + 1 else nsucc
      let r := broadcastGo cmd bs lowest' nsucc'
      ({ b with sescmds := q } :: r.1, r.2.1, r.2.2)
    else
      let r := broadcastGo cmd bs lowest nsucc
      (b :: r.1, r.2.1, r.2.2)

/-- The response-map prune of `route_session_write` in disabled-history mode:
`lower_bound(lowest_pos)` finds the first stored position at or above the
bound, and only when such an entry exists (`it != end()`) are the entries
below the bound erased.  When every stored response lies below the bound the
source skips the erase. -/
def pruneResponses (m : List (Nat × Nat)) (p : Nat) : List (Nat × Nat) :=
  if m.any (fun kv => p ≤ kv.1) then m.filter (fun kv => p ≤ kv.1) else m

/-- Result of `route_session_write`: the new session state, the boolean the
call returns (`nsucc` converted to bool), whether the history-limit warning
was logged by this call, and the new value of the function-local static
`warn_history_exceeded` latch (process state, threaded explicitly). -/
structure RSWResult where
  s : RWSplitSession
  ok : Bool
  warned : Bool
  warn_flag : Bool
deriving Repr, DecidableEq

/-- `RWSplitSession::route_session_write`: assign the next position
(`sescmd_count++`), store PREPARE packets with the prepared-statement
manager, broadcast and execute the command on every in-use backend, handle
the `max_sescmd_history` limit (clear the log, latch
`disable_sescmd_history`, zero the limit, warn under the process-wide static
latch), prune stored responses in disabled-history mode or purge-and-append
in retained mode, and record `sent_sescmd` / `recv_sescmd` when at least one
backend executed the command.  The expected-response bookkeeping adds one
response per successful execute of a responding command, as the source's
loop does. -/
def route_session_write (s : RWSplitSession) (warn_flag : Bool)
    (querybuf : GWBUF) (command : Nat) (qtype : TypeMask) : RSWResult :=
  let id := s.sescmd_count
  let sescmd : SessionCommand :=
    { position := id, command := command, payload := querybuf.payload }
  let expecting_response := mxs_mysql_command_will_respond command
  let ps' :=
    if qtype.prepare_named_stmt || qtype.prepare_stmt then
      s.ps_store ++ [(id, querybuf)]
    else s.ps_store
  let r := broadcastGo sescmd s.backends id 0
  let lowest_pos := r.2.1
  let nsucc := r.2.2
  let expected' :=
    s.expected_responses + (if expecting_response then nsucc else 0)
  let hitLimit :=
    0 < s.rses_config.max_sescmd_history &&
      s.rses_config.max_sescmd_history ≤ s.sescmd_list.length
  let warned := hitLimit && warn_flag
  let warn_flag' := if hitLimit then false else warn_flag
  let cfg' :=
    if hitLimit then
      { s.rses_config with disable_sescmd_history := true,
                           max_sescmd_history := 0 }
    else s.rses_config
  let list1 := if hitLimit then [] else s.sescmd_list
  let pr := purge_history list1 sescmd
  let list2 := if cfg'.disable_sescmd_history then list1 else pr.1 ++ [sescmd]
  let resp' :=
    if cfg'.disable_sescmd_history then
      pruneResponses s.sescmd_responses lowest_pos
    else
      match pr.2 with
      | some p => s.sescmd_responses.filter (fun kv => kv.1 ≠ p)
      | none => s.sescmd_responses
  let sent' := if nsucc ≠ 0 then id else s.sent_sescmd
  let recv' :=
    if nsucc ≠ 0 && !expecting_response then s.recv_sescmd + 1
    else s.recv_sescmd
  { s := { s with sescmd_count := id + 1, ps_store := ps', backends := r.1,
                  expected_responses := expected', rses_config := cfg',
                  sescmd_list := list2, sescmd_responses := resp',
                  sent_sescmd := sent', recv_sescmd := recv' },
    ok := nsucc != 0, warned := warned, warn_flag := warn_flag' }

/-! ## Backend selection -/

/-- Replication-lag admissibility check (`rpl_lag_is_ok`): the configured
maximum is undefined, or the backend's lag is measured and within it. -/
def rpl_lag_is_ok (b : RWBackend) (max_rlag : Int) : Bool :=
  max_rlag == MAX_RLAG_UNDEFINED ||
    (b.rlag != MAX_RLAG_NOT_AVAILABLE && b.rlag ≤ max_rlag)

/-- Modelled from the spec: `get_max_replication_lag` (declared outside these
sources); spec section 6 has `max_slave_replication_lag = -1`, "unlimited
when negative", so a non-positive configured value maps to the undefined
sentinel. -/
def get_max_replication_lag (s : RWSplitSession) : Int :=
  if s.rses_config.max_slave_replication_lag < 1 then MAX_RLAG_UNDEFINED
  else s.rses_config.max_slave_replication_lag

/-- `compare_backends`: resolve two candidates through the configured
selection criterion `cmp` (the `criteria_cmpfun` table entry); a missing
candidate yields the other. -/
def compare_backends (cmp : RWBackend → RWBackend → Int) :
    Option RWBackend → Option RWBackend → Option RWBackend
  | none, b => b
  | some a, none => some a
  | some a, some b => if cmp a b ≤ 0 then some a else some b

/-- Modelled from the spec: the second component of `get_slave_counts`
(declared outside these sources) — "the session's slave count" of spec
section 4.3 — modelled as the number of in-use slave backends. -/
def slaves_connected (bs : List RWBackend) : Nat :=
  bs.countP (fun b => b.in_use && b.status_slave)

/-- The candidate loop of `get_slave_backend`: a backend that is a master or
slave within the lag bound becomes the first candidate when it is a slave or
the current master; a later backend challenges the candidate only when it is
in use or the connected-slave count is below `max_slave_count`, the
challenger replacing a master outright when `master_accept_reads` is off and
otherwise going through `compare_backends`. -/
def slave_candidate_go (cm : Option Nat) (accept_reads : Bool)
    (maxc conn : Nat) (cmp : RWBackend → RWBackend → Int) (max_rlag : Int) :
    List RWBackend → Option RWBackend → Option RWBackend
  | [], rval => rval
  | b :: bs, rval =>
    let rval' :=
      if (b.status_master || b.status_slave) && rpl_lag_is_ok b max_rlag then
        match rval with
        | none =>
          if (b.status_master && cm == some b.id) || b.status_slave then some b
          else none
        | some r =>
          if b.in_use || conn < maxc then
            if !accept_reads && r.status_master then some b
            else compare_backends cmp (some r) (some b)
          else some r
      else rval
    slave_candidate_go cm accept_reads maxc conn cmp max_rlag bs rval'

/-- `RWSplitSession::get_slave_backend`. -/
def get_slave_backend (s : RWSplitSession) (cmp : RWBackend → RWBackend → Int)
    (max_rlag : Int) : Option RWBackend :=
  slave_candidate_go s.current_master s.rses_config.master_accept_reads
    s.rses_config.max_slave_count (slaves_connected s.backends) cmp max_rlag
    s.backends none

/-- Modelled from the spec: `get_root_master` (declared outside these
sources); spec section 4.3, "MASTER: the cluster's unique primary Backend".
Modelled as the first backend whose server status is master. -/
def get_root_master (bs : List RWBackend) : Option RWBackend :=
  bs.find? (fun b => b.status_master)

/-- `RWSplitSession::get_master_backend`: the root master, provided it is in
use or openable and has the master state. -/
def get_master_backend (s : RWSplitSession) : Option Nat :=
  match get_root_master s.backends with
  | none => none
  | some m =>
    if m.in_use || m.can_connect then
      if m.status_master then some m.id else none
    else none

/-- Case-insensitive server-name comparison (`strcasecmp`). -/
def nameEq (a b : String) : Bool :=
  a.toLower == b.toLower

/-- `RWSplitSession::get_hinted_backend`: the first in-use backend whose name
matches and that is a valid slave, relay server, or master. -/
def get_hinted_backend (s : RWSplitSession) (n : String) : Option Nat :=
  (s.backends.find? (fun b =>
      b.in_use && nameEq n b.bname &&
        (b.status_slave || b.status_relay || b.status_master))).map (·.id)

/-- `RWSplitSession::get_target_backend`: inside a read-only transaction the
pinned `target_node` is used; otherwise dispatch on hint name or backend
type. -/
def get_target_backend (s : RWSplitSession) (btype : BackendType)
    (name : Option String) (max_rlag : Int)
    (cmp : RWBackend → RWBackend → Int) : Option Nat :=
  if s.target_node.isSome && s.trx_read_only then s.target_node
  else
    match name with
    | some n => get_hinted_backend s n
    | none =>
      match btype with
      | BackendType.be_slave => (get_slave_backend s cmp max_rlag).map (·.id)
      | BackendType.be_master => get_master_backend s

/-- The hint scan of `handle_hinted_target`: the last named-server hint and
the last `max_slave_replication_lag` parameter hint win. -/
def scan_hints : List MXSHint → Option String → Int → Option String × Int
  | [], n, r => (n, r)
  | MXSHint.routeToNamed nm :: hs, _, r => scan_hints hs (some nm) r
  | MXSHint.paramMaxRlag v :: hs, n, _ => scan_hints hs n v
  | MXSHint.otherKind :: hs, n, r => scan_hints hs n r

/-- `RWSplitSession::handle_hinted_target`: read the hints, fall back to the
configured maximum replication lag, and search by name (slave type) or by
the `TARGET_SLAVE` bit of the route target. -/
def handle_hinted_target (s : RWSplitSession) (querybuf : GWBUF)
    (rt : RouteTarget) (cmp : RWBackend → RWBackend → Int) : Option Nat :=
  let sc := scan_hints querybuf.hints none MAX_RLAG_UNDEFINED
  let rlag_max := if sc.2 == MAX_RLAG_UNDEFINED then get_max_replication_lag s else sc.2
  let btype := if rt.is_slave then BackendType.be_slave else BackendType.be_master
  get_target_backend s btype sc.1 rlag_max cmp

/-- Ordered-map style lookup in the `ExecMap`. -/
def map_lookup (m : List (Nat × Nat)) (k : Nat) : Option Nat :=
  (m.find? (fun kv => kv.1 == k)).map (·.2)

/-- Ordered-map style overwrite-or-insert into the `ExecMap`
(`exec_map[stmt_id] = target`). -/
def map_insert (m : List (Nat × Nat)) (k v : Nat) : List (Nat × Nat) :=
  if m.any (fun kv => kv.1 == k) then
    m.map (fun kv => if kv.1 == k then (k, v) else kv)
  else m ++ [(k, v)]

/-- `RWSplitSession::handle_slave_is_target`: COM_STMT_FETCH is sent to the
backend recorded in the `ExecMap` for the statement id; an unknown id logs a
warning (returned as the second component) and falls through to plain slave
selection. -/
def handle_slave_is_target (s : RWSplitSession) (cmd stmt_id : Nat)
    (cmp : RWBackend → RWBackend → Int) : Option Nat × Bool :=
  let rlag_max := get_max_replication_lag s
  let fetched :=
    if cmd == MXS_COM_STMT_FETCH then map_lookup s.exec_map stmt_id else none
  let warned :=
    cmd == MXS_COM_STMT_FETCH && (map_lookup s.exec_map stmt_id).isNone
  let target :=
    match fetched with
    | some t => some t
    | none => get_target_backend s BackendType.be_slave none rlag_max cmp
  (target, warned)

/-- `RWSplitSession::should_replace_master`. -/
def should_replace_master (s : RWSplitSession) (target : Option Nat) : Bool :=
  s.rses_config.master_reconnection &&
    target.isSome && target != s.current_master &&
    !s.trx_active && !locked_to_master s

/-- `RWSplitSession::replace_master`: adopt the new master and drop
temporary-table tracking. -/
def replace_master (s : RWSplitSession) (target : Option Nat) : RWSplitSession :=
  { s with current_master := target, have_tmp_tables := false, temp_tables := [] }

/-- Modelled from the spec: `send_readonly_error` (declared outside these
sources) replies to the client with a "read-only" error; its success is the
environment-controlled outcome of writing to the client connection. -/
def send_readonly_error (s : RWSplitSession) : Bool :=
  s.client_write_ok

/-- `RWSplitSession::handle_master_is_target`: fetch the master target,
possibly adopting a newly observed master; when the target is not the
current master connection, `error_on_write` replies with a read-only error
and closes a lingering in-use master, while the remaining failure modes fail
the routing. -/
def handle_master_is_target (s : RWSplitSession)
    (cmp : RWBackend → RWBackend → Int) :
    RWSplitSession × Option Nat × Bool :=
  let target := get_target_backend s BackendType.be_master none MAX_RLAG_UNDEFINED cmp
  let s := if should_replace_master s target then replace_master s target else s
  if target.isSome && target == s.current_master then
    (s, target, true)
  else
    if s.rses_config.master_failure_mode == FailureMode.error_on_write then
      let succp := send_readonly_error s
      let s :=
        match s.current_master with
        | some m => if (lookupB s m).in_use then updateB s m closeB else s
        | none => s
      (s, target, succp)
    else
      (s, target, false)

/-! ## Connecting and writing to a target -/

/-- Modelled from the spec: `Backend::connect` (spec section 4.1) "opens a
connection; on success, enqueues every command in the provided log for
replay"; success is the environment-controlled `connect_ok` bit. -/
def backend_connect (s : RWSplitSession) (t : Nat) : RWSplitSession × Bool :=
  let b := lookupB s t
  if b.connect_ok then
    (updateB s t (fun b => { b with in_use := true, sescmds := s.sescmd_list }),
     true)
  else (s, false)

/-- `RWSplitSession::prepare_target`: connect an unused reachable backend;
for slave targets (or master targets under `master_reconnection`) the
connection is attempted only when the session-command history is enabled or
no session command has completed — in the disabled-history case the source
logs an error but leaves `rval` at `true`; a master target without
`master_reconnection` fails. -/
def prepare_target (s : RWSplitSession) (t : Nat) (rt : RouteTarget) :
    RWSplitSession × Bool :=
  let b := lookupB s t
  if !b.in_use && b.can_connect then
    if rt.is_slave || (s.rses_config.master_reconnection && rt.is_master) then
      if !s.rses_config.disable_sescmd_history || s.recv_sescmd == 0 then
        backend_connect s t
      else (s, true)
    else if rt.is_master then (s, false)
    else (s, true)
  else (s, true)

/-- `is_large_query`: the wire packet length equals the 4-byte header plus
the maximum payload length. -/
def is_large_query (buf : GWBUF) : Bool :=
  buf.length == MYSQL_HEADER_LEN + GW_MYSQL_MAX_PACKET_LEN

/-- Modelled from the spec: `add_prefix_wait_gtid` packs a
`MASTER_GTID_WAIT` statement in front of the query (spec section 4.4 step
7); the rewrite is abstracted as marking the packet. -/
def add_prefix_wait_gtid (buf : GWBUF) : GWBUF :=
  { buf with causal_prefixed := true }

/-- `RWSplitSession::handle_got_target`: pin the target inside an opening
read-only transaction, optionally prefix the causal-read wait, write the
packet (success given by the backend's `write_ok` environment bit), store a
retryable statement, account the expected response for non-large responding
commands with the LOAD DATA transitions, record or clear the large-query
previous target, and unpin when a read-only transaction ends. -/
def handle_got_target (s : RWSplitSession) (querybuf : GWBUF) (t : Nat)
    (store : Bool) : RWSplitSession × Bool :=
  let pinned :=
    if s.target_node == none && s.trx_read_only then some t else s.target_node
  let cmd := querybuf.command
  let causal :=
    cmd == MXS_COM_QUERY && s.rses_config.enable_causal_read &&
      s.gtid_pos != ""
  let send_buf := if causal then add_prefix_wait_gtid querybuf else querybuf
  let wgs :=
    if causal then WaitGtidState.expecting_wait_gtid_result
    else WaitGtidState.expecting_nothing
  let response :=
    s.load_data_state != LoadDataState.active &&
      mxs_mysql_command_will_respond cmd
  let lq := is_large_query querybuf
  if (lookupB s t).write_ok then
    let expect_resp := !lq && response
    let bs' := s.backends.map (fun b =>
      if b.id == t then
        { b with written := b.written ++ [send_buf],
                 reply_state :=
                   if expect_resp then ReplyState.start else b.reply_state }
      else b)
    let stored' := if store then some querybuf else s.stored_stmt
    let expected' :=
      if expect_resp then s.expected_responses + 1 else s.expected_responses
    let lds :=
      if expect_resp then
        if s.load_data_state == LoadDataState.ld_start then LoadDataState.active
        else if s.load_data_state == LoadDataState.ld_end then
          LoadDataState.inactive
        else s.load_data_state
      else s.load_data_state
    let target_node' :=
      if pinned.isSome && s.trx_read_only && s.trx_ending then none else pinned
    ({ s with target_node := target_node', wait_gtid_state := wgs,
              backends := bs', stored_stmt := stored',
              expected_responses := expected', load_data_state := lds,
              large_query := lq,
              prev_target := if lq then some t else none }, true)
  else
    ({ s with target_node := pinned, wait_gtid_state := wgs }, false)

/-! ## `RWSplitSession::route_single_stmt` -/

/-- `RWSplitSession::handle_connection_keepalive` pings idle in-use backends
through their DCBs; it mutates none of the modelled session state. -/
def handle_connection_keepalive (s : RWSplitSession) : RWSplitSession := s

/-- Modelled from the spec: `replace_binary_ps_id` (declared outside these
sources) rewrites the statement id carried in a binary-protocol packet to
the internal id (spec section 4.5). -/
def replace_binary_ps_id (buf : GWBUF) (stmt_id : Nat) : GWBUF :=
  { buf with ps_id := stmt_id }

/-- The packet as `route_single_stmt` leaves it after the conditional
`replace_binary_ps_id` rewrite at its entry. -/
def rewritten_querybuf (s : RWSplitSession) (querybuf : GWBUF)
    (info : RouteInfo) : GWBUF :=
  if !locked_to_master s && mxs_mysql_is_ps_command info.command then
    replace_binary_ps_id querybuf info.stmt_id
  else querybuf

/-- Modelled from the spec: `handle_target_is_all` (declared outside these
sources) performs the append-and-broadcast flow of spec section 4.2, which
`route_session_write` implements. -/
def handle_target_is_all (s : RWSplitSession) (warn_flag : Bool)
    (querybuf : GWBUF) (command : Nat) (qtype : TypeMask) : RSWResult :=
  route_session_write s warn_flag querybuf command qtype

/-- The target-resolution phase of `route_single_stmt` (its non-ALL branch):
a large-query continuation reuses `prev_target`; hinted targets go through
`handle_hinted_target`; slave targets through `handle_slave_is_target`
(recording `retry_failed_reads` as the store flag); master targets through
`handle_master_is_target` followed by the relaxed-mode reset of the forced
node.  Returns (state, succp, target, store_stmt). -/
def resolve_target (s : RWSplitSession) (querybuf : GWBUF) (info : RouteInfo)
    (cmp : RWBackend → RWBackend → Int) :
    RWSplitSession × Bool × Option Nat × Bool :=
  if s.large_query then
    (s, true, s.prev_target, false)
  else if info.target.is_named_server || info.target.is_rlag_max then
    match handle_hinted_target s querybuf info.target cmp with
    | some t => (s, true, some t, false)
    | none => (s, false, none, false)
  else if info.target.is_slave then
    match (handle_slave_is_target s info.command info.stmt_id cmp).1 with
    | some t => (s, true, some t, s.rses_config.retry_failed_reads)
    | none => (s, false, none, false)
  else if info.target.is_master then
    let r := handle_master_is_target s cmp
    let s1 := r.1
    let s2 :=
      if !s1.rses_config.strict_multi_stmt && !s1.rses_config.strict_sp_calls &&
          s1.target_node == s1.current_master then
        { s1 with target_node := none }
      else s1
    (s2, r.2.2, r.2.1, false)
  else
    (s, false, none, false)

/-- `RWSplitSession::route_single_stmt`: rewrite the prepared-statement id
when not locked to the master, dispatch `TARGET_IS_ALL` to the
append-and-broadcast flow, otherwise resolve a target, prepare it
(connecting when needed), defer the packet onto the query queue when the
target still has pending session commands, or hand it to
`handle_got_target`, recording the COM_STMT_EXECUTE target in the
`ExecMap`; finally run connection keep-alive.  Returns (state, succp, the
process-wide history-warning latch). -/
def route_single_stmt (s : RWSplitSession) (warn_flag : Bool)
    (querybuf : GWBUF) (info : RouteInfo)
    (cmp : RWBackend → RWBackend → Int) :
    RWSplitSession × Bool × Bool :=
  let not_locked := !locked_to_master s
  let buf := rewritten_querybuf s querybuf info
  if info.target.is_all then
    let r := handle_target_is_all s warn_flag buf info.command info.qtype
    (r.s, r.ok, r.warn_flag)
  else
    let out :=
      match resolve_target s buf info cmp with
      | (s1, true, some t, store_stmt) =>
        let pt := prepare_target s1 t info.target
        if !pt.2 then
          (pt.1, false)
        else if have_session_commands (lookupB pt.1 t) then
          ({ pt.1 with expected_responses := pt.1.expected_responses + 1,
                       query_queue := pt.1.query_queue ++ [buf] }, true)
        else
          let hg := handle_got_target pt.1 buf t store_stmt
          let s2 :=
            if hg.2 && info.command == MXS_COM_STMT_EXECUTE && not_locked then
              { hg.1 with exec_map := map_insert hg.1.exec_map info.stmt_id t }
            else hg.1
          (s2, hg.2)
      | (s1, succp, _, _) => (s1, succp)
    let out :=
      if out.2 && 0 < out.1.rses_config.connection_keepalive &&
          (info.target.is_slave || info.target.is_master) then
        (handle_connection_keepalive out.1, out.2)
      else out
    (out.1, out.2, warn_flag)

/-! ## Concrete fixtures used by witnesses and counterexamples -/

/-- Default router configuration for concrete runs. -/
def cfg0 : Config :=
  { disable_sescmd_history := false, max_sescmd_history := 0,
    master_reconnection := false, master_accept_reads := false,
    master_failure_mode := FailureMode.fail_instantly,
    retry_failed_reads := false, strict_multi_stmt := true,
    strict_sp_calls := true, connection_keepalive := 0,
    max_slave_replication_lag := -1, max_slave_count := 255,
    enable_causal_read := false }

/-- Empty router session for concrete runs. -/
def sess0 : RWSplitSession :=
  { backends := [], current_master := none, target_node := none,
    prev_target := none, large_query := false, exec_map := [],
    query_queue := [], expected_responses := 0, sescmd_count := 0,
    sent_sescmd := 0, recv_sescmd := 0, sescmd_list := [],
    sescmd_responses := [], rses_config := cfg0, gtid_pos := "",
    load_data_state := LoadDataState.inactive,
    wait_gtid_state := WaitGtidState.expecting_nothing, trx_active := false,
    trx_read_only := false, trx_ending := false, have_tmp_tables := false,
    temp_tables := [], ps_store := [], stored_stmt := none,
    client_write_ok := true }

/-- Small COM_QUERY packet for concrete runs. -/
def buf0 : GWBUF :=
  { length := 20, command := MXS_COM_QUERY, payload := "q", ps_id := 0,
    hints := [], causal_prefixed := false }

/-! ## Facts about the purge (claim C1) -/

theorem sc_eq_iff {a b : SessionCommand} :
    sc_eq a b = true ↔ a.command = b.command ∧ a.payload = b.payload := by
  simp [sc_eq]

theorem sc_eq_refl (a : SessionCommand) : sc_eq a a = true := by
  simp [sc_eq]

theorem sc_eq_congr {c a : SessionCommand} (h : sc_eq c a = true)
    (x : SessionCommand) : sc_eq x a = sc_eq x c := by
  have h1 := (sc_eq_iff.mp h).1
  have h2 := (sc_eq_iff.mp h).2
  simp [sc_eq, h1, h2]

theorem countP_eraseFirstEq_le (p : SessionCommand → Bool)
    (c : SessionCommand) :
    ∀ xs : List SessionCommand,
      ((eraseFirstEq c xs).1).countP p ≤ xs.countP p := by
  intro xs
  induction xs with
  | nil => simp [eraseFirstEq]
  | cons x xs ih =>
    by_cases h : sc_eq x c = true <;> by_cases hp : p x = true <;>
      simp [eraseFirstEq, h, hp, List.countP_cons] <;> omega

theorem countP_eraseFirstEq_zero (c : SessionCommand) :
    ∀ xs : List SessionCommand,
      xs.countP (fun x => sc_eq x c) ≤ 1 →
      ((eraseFirstEq c xs).1).countP (fun x => sc_eq x c) = 0 := by
  intro xs
  induction xs with
  | nil => intro _; simp [eraseFirstEq]
  | cons x xs ih =>
    intro h
    by_cases hx : sc_eq x c = true
    · have hxs : xs.countP (fun y => sc_eq y c) = 0 := by
        simp [List.countP_cons, hx] at h
        simpa [List.countP_eq_zero] using h
      simp [eraseFirstEq, hx, hxs]
    · have hxs : xs.countP (fun y => sc_eq y c) ≤ 1 := by
        simp [List.countP_cons, hx] at h
        omega
      simp [eraseFirstEq, hx, List.countP_cons, ih hxs]

theorem countP_purgeGo_le (p : SessionCommand → Bool) (c : SessionCommand) :
    ∀ xs : List SessionCommand,
      ((purgeGo c xs).1).countP p ≤ xs.countP p := by
  intro xs
  induction xs with
  | nil => simp [purgeGo]
  | cons x xs ih =>
    have hle := countP_eraseFirstEq_le p c xs
    by_cases h : sc_eq x c = true <;> by_cases hp : p x = true <;>
      simp [purgeGo, h, hp, List.countP_cons] <;> omega

theorem countP_purgeGo_self (c : SessionCommand) :
    ∀ xs : List SessionCommand,
      xs.countP (fun x => sc_eq x c) ≤ 2 →
      ((purgeGo c xs).1).countP (fun x => sc_eq x c) ≤ 1 := by
  intro xs
  induction xs with
  | nil => intro _; simp [purgeGo]
  | cons x xs ih =>
    intro h
    by_cases hx : sc_eq x c = true
    · have hxs : xs.countP (fun y => sc_eq y c) ≤ 1 := by
        simp [List.countP_cons, hx] at h
        omega
      have hz := countP_eraseFirstEq_zero c xs hxs
      simp [purgeGo, hx, List.countP_cons, hz]
    · have hxs : xs.countP (fun y => sc_eq y c) ≤ 2 := by
        simp [List.countP_cons, hx] at h
        omega
      simpa [purgeGo, hx, List.countP_cons] using ih hxs

theorem mem_eraseFirstEq {x : SessionCommand} (c : SessionCommand) :
    ∀ xs : List SessionCommand, x ∈ xs → sc_eq x c = false →
      x ∈ (eraseFirstEq c xs).1 := by
  intro xs
  induction xs with
  | nil => intro h; cases h
  | cons y ys ih =>
    intro hmem hne
    by_cases hy : sc_eq y c = true
    · simp only [eraseFirstEq, hy, if_true]
      rcases List.mem_cons.mp hmem with rfl | h
      · rw [hne] at hy; cases hy
      · exact h
    · simp only [eraseFirstEq, hy, if_false, Bool.not_eq_true]
      rcases List.mem_cons.mp hmem with rfl | h
      · exact List.mem_cons_self _ _
      · exact List.mem_cons_of_mem _ (ih h hne)

theorem mem_purgeGo {x : SessionCommand} (c : SessionCommand) :
    ∀ xs : List SessionCommand, x ∈ xs → sc_eq x c = false →
      x ∈ (purgeGo c xs).1 := by
  intro xs
  induction xs with
  | nil => intro h; cases h
  | cons y ys ih =>
    intro hmem hne
    by_cases hy : sc_eq y c = true
    · simp only [purgeGo, hy, if_true]
      rcases List.mem_cons.mp hmem with rfl | h
      · exact List.mem_cons_self _ _
      · exact List.mem_cons_of_mem _ (mem_eraseFirstEq c ys h hne)
    · simp only [purgeGo, hy, if_false, Bool.not_eq_true]
      rcases List.mem_cons.mp hmem with rfl | h
      · exact List.mem_cons_self _ _
      · exact List.mem_cons_of_mem _ (ih h hne)

theorem eraseFirstEq_subset {x : SessionCommand} (c : SessionCommand) :
    ∀ xs : List SessionCommand, x ∈ (eraseFirstEq c xs).1 → x ∈ xs := by
  intro xs
  induction xs with
  | nil => intro h; simp [eraseFirstEq] at h
  | cons y ys ih =>
    intro hmem
    by_cases hy : sc_eq y c = true
    · simp only [eraseFirstEq, hy, if_true] at hmem
      exact List.mem_cons_of_mem _ hmem
    · simp only [eraseFirstEq, hy, if_false, Bool.not_eq_true] at hmem
      rcases List.mem_cons.mp hmem with rfl | h
      · exact List.mem_cons_self _ _
      · exact List.mem_cons_of_mem _ (ih h)

theorem purgeGo_subset {x : SessionCommand} (c : SessionCommand) :
    ∀ xs : List SessionCommand, x ∈ (purgeGo c xs).1 → x ∈ xs := by
  intro xs
  induction xs with
  | nil => intro h; simp [purgeGo] at h
  | cons y ys ih =>
    intro hmem
    by_cases hy : sc_eq y c = true
    · simp only [purgeGo, hy, if_true] at hmem
      rcases List.mem_cons.mp hmem with rfl | h
      · exact List.mem_cons_self _ _
      · exact List.mem_cons_of_mem _ (eraseFirstEq_subset c ys h)
    · simp only [purgeGo, hy, if_false, Bool.not_eq_true] at hmem
      rcases List.mem_cons.mp hmem with rfl | h
      · exact List.mem_cons_self _ _
      · exact List.mem_cons_of_mem _ (ih h)

theorem purge_history_subset {x : SessionCommand} {l : List SessionCommand}
    {c : SessionCommand} (h : x ∈ (purge_history l c).1) : x ∈ l := by
  by_cases hc : c.command == MXS_COM_STMT_PREPARE
  · simpa [purge_history, hc] using h
  · exact purgeGo_subset c l (by simpa [purge_history, hc] using h)

theorem sc_eq_symmetric {a b : SessionCommand} (h : sc_eq a b = true) :
    sc_eq b a = true :=
  sc_eq_iff.mpr ⟨(sc_eq_iff.mp h).1.symm, (sc_eq_iff.mp h).2.symm⟩

theorem dupBound_appendPurge (l : List SessionCommand) (c : SessionCommand)
    (h : dupBound l) : dupBound (appendPurge l c) := by
  intro a ha hcmd
  by_cases hc : c.command = MXS_COM_STMT_PREPARE
  · have hpg : (purge_history l c).1 = l := by
      simp [purge_history, hc]
    have hca : sc_eq c a = false := by
      by_contra hcon
      have hcc := (sc_eq_iff.mp (by simpa using hcon)).1
      exact hcmd (hcc.symm.trans hc)
    have hal : a ∈ l := by
      have h1 : a ∈ l ∨ a = c := by simpa [appendPurge, hpg] using ha
      rcases h1 with h1 | rfl
      · exact h1
      · simp [sc_eq_refl] at hca
    have h2 := h a hal hcmd
    simp [appendPurge, hpg, List.countP_append, List.countP_cons, hca]
    omega
  · have hpg : (purge_history l c).1 = (purgeGo c l).1 := by
      simp [purge_history, hc]
    by_cases he : sc_eq c a = true
    · have hrw : ∀ x, sc_eq x a = sc_eq x c := sc_eq_congr he
      have hbound : l.countP (fun x => sc_eq x c) ≤ 2 := by
        by_cases h0 : l.countP (fun x => sc_eq x c) = 0
        · omega
        · have hpos : 0 < l.countP (fun x => sc_eq x c) := Nat.pos_of_ne_zero h0
          rcases List.countP_pos_iff.mp hpos with ⟨x, hx, hpx⟩
          have hx_cmd : x.command ≠ MXS_COM_STMT_PREPARE := by
            have hxc := (sc_eq_iff.mp (by simpa using hpx)).1
            rw [hxc]; exact hc
          have hcount := h x hx hx_cmd
          have hrx : ∀ y, sc_eq y c = sc_eq y x :=
            sc_eq_congr (by simpa using hpx)
          calc l.countP (fun y => sc_eq y c)
              = l.countP (fun y => sc_eq y x) := by
                simp only [hrx]
            _ ≤ 2 := hcount
      have hpself := countP_purgeGo_self c l hbound
      simp only [appendPurge, hpg, List.countP_append, List.countP_cons,
        List.countP_nil, hrw]
      simp [sc_eq_refl c]
      omega
    · have hca : sc_eq c a = false := by simpa using he
      have hal : a ∈ (purgeGo c l).1 := by
        have h1 : a ∈ (purgeGo c l).1 ∨ a = c := by
          simpa [appendPurge, hpg] using ha
        rcases h1 with h1 | rfl
        · exact h1
        · simp [sc_eq_refl] at hca
      have hsub : a ∈ l := purgeGo_subset c l hal
      have h1 := countP_purgeGo_le (fun x => sc_eq x a) c l
      have h2 := h a hsub hcmd
      simp [appendPurge, hpg, List.countP_append, List.countP_cons, hca]
      omega

theorem dupBound_noThird {l : List SessionCommand} (h : dupBound l) :
    ∀ l₁ a l₂ b l₃ c l₄, l = l₁ ++ a :: (l₂ ++ b :: (l₃ ++ c :: l₄)) →
      a.command ≠ MXS_COM_STMT_PREPARE →
      sc_eq a c = true → sc_eq a b = false := by
  intro l₁ a l₂ b l₃ c l₄ heq hcmd hac
  by_contra hcon
  have hab : sc_eq a b = true := by simpa using hcon
  have hba : sc_eq b a = true := sc_eq_symmetric hab
  have hca : sc_eq c a = true := sc_eq_symmetric hac
  have hmem : a ∈ l := by
    rw [heq]
    exact List.mem_append.mpr (Or.inr (List.mem_cons_self _ _))
  have hcount := h a hmem hcmd
  rw [heq] at hcount
  simp [List.countP_append, List.countP_cons, sc_eq_refl a, hba, hca] at hcount
  omega

theorem appendPurge_keeps_prepare (l : List SessionCommand)
    (c : SessionCommand) :
    ∀ x ∈ l, x.command = MXS_COM_STMT_PREPARE → x ∈ appendPurge l c := by
  intro x hx hxcmd
  by_cases hc : c.command = MXS_COM_STMT_PREPARE
  · simp only [appendPurge, purge_history, hc, beq_self_eq_true, if_true]
    exact List.mem_append_left _ hx
  · have hne : sc_eq x c = false := by
      by_contra hcon
      have hxc := (sc_eq_iff.mp (by simpa using hcon)).1
      exact hc (hxc.symm.trans hxcmd)
    have hcb : (c.command == MXS_COM_STMT_PREPARE) = false := by
      simpa using hc
    simp only [appendPurge, purge_history, hcb, if_false, Bool.false_eq_true]
    exact List.mem_append_left _ (mem_purgeGo c l hx hne)

/-- C1 (amended): after a purge-duplicates append, the bounded-duplication
invariant is preserved; for any two retained session commands with equal
textual payload whose command byte is not COM_STMT_PREPARE, no third command
with that payload exists between them; and COM_STMT_PREPARE commands are
never removed by the purge. -/
theorem C1_purge_history_law (l : List SessionCommand) (c : SessionCommand)
    (h : dupBound l) :
    dupBound (appendPurge l c) ∧
    (∀ l₁ a l₂ b l₃ d l₄,
        appendPurge l c = l₁ ++ a :: (l₂ ++ b :: (l₃ ++ d :: l₄)) →
        a.command ≠ MXS_COM_STMT_PREPARE →
        sc_eq a d = true → sc_eq a b = false) ∧
    (∀ x ∈ l, x.command = MXS_COM_STMT_PREPARE → x ∈ appendPurge l c) :=
  ⟨dupBound_appendPurge l c h,
   fun l₁ a l₂ b l₃ d l₄ he hcmd =>
     dupBound_noThird (dupBound_appendPurge l c h) l₁ a l₂ b l₃ d l₄ he hcmd,
   appendPurge_keeps_prepare l c⟩

/-- Witness for C1: the hypotheses of `C1_purge_history_law` hold at a
concrete one-element log and the purged append keeps the bound. -/
theorem C1_witness :
    dupBound [({ position := 0, command := 3, payload := "set" } : SessionCommand)] ∧
    dupBound (appendPurge [{ position := 0, command := 3, payload := "set" }]
      { position := 1, command := 3, payload := "set" }) :=
  ⟨by unfold dupBound; decide,
   (C1_purge_history_law [{ position := 0, command := 3, payload := "set" }]
      { position := 1, command := 3, payload := "set" }
      (by unfold dupBound; decide)).1⟩

/-! ## Facts about session writes (claims C2 and C4) -/

/-- Type bits of a plain statement. -/
def tm00 : TypeMask := { prepare_named_stmt := false, prepare_stmt := false }

theorem broadcastGo_backends (cmd : SessionCommand) :
    ∀ (bs : List RWBackend) (lowest nsucc : Nat),
      (broadcastGo cmd bs lowest nsucc).1 =
        bs.map (fun b =>
          if b.in_use then { b with sescmds := b.sescmds ++ [cmd] } else b) := by
  intro bs
  induction bs with
  | nil => intro lowest nsucc; simp [broadcastGo]
  | cons b bs ih =>
    intro lowest nsucc
    by_cases hb : b.in_use = true <;> simp [broadcastGo, hb, ih]

theorem broadcastGo_nsucc (cmd : SessionCommand) :
    ∀ (bs : List RWBackend) (lowest nsucc : Nat),
      (broadcastGo cmd bs lowest nsucc).2.2 =
        nsucc + bs.countP (fun b => b.in_use && b.exec_ok) := by
  intro bs
  induction bs with
  | nil => intro lowest nsucc; simp [broadcastGo]
  | cons b bs ih =>
    intro lowest nsucc
    by_cases hb : b.in_use = true <;> by_cases he : b.exec_ok = true <;>
      simp [broadcastGo, hb, he, ih, List.countP_cons] <;> omega

theorem pruneResponses_subset {kv : Nat × Nat} {m : List (Nat × Nat)}
    {p : Nat} (h : kv ∈ pruneResponses m p) : kv ∈ m := by
  unfold pruneResponses at h
  split at h
  · exact (List.mem_filter.mp h).1
  · exact h

/-- The position invariant of the session: every session-command position
recorded anywhere in the session is below `sescmd_count` (the next position
to hand out). -/
def posInv (s : RWSplitSession) : Prop :=
  (∀ c ∈ s.sescmd_list, c.position < s.sescmd_count) ∧
  (∀ b ∈ s.backends, ∀ c ∈ b.sescmds, c.position < s.sescmd_count) ∧
  (∀ kv ∈ s.sescmd_responses, kv.1 < s.sescmd_count)

theorem route_session_write_backends (s : RWSplitSession) (wf : Bool)
    (buf : GWBUF) (command : Nat) (qtype : TypeMask) :
    (route_session_write s wf buf command qtype).s.backends =
      s.backends.map (fun b =>
        if b.in_use then
          { b with sescmds := b.sescmds ++
              [{ position := s.sescmd_count, command := command,
                 payload := buf.payload }] }
        else b) := by
  simp only [route_session_write]
  simp [broadcastGo_backends]

theorem route_session_write_count (s : RWSplitSession) (wf : Bool)
    (buf : GWBUF) (command : Nat) (qtype : TypeMask) :
    (route_session_write s wf buf command qtype).s.sescmd_count =
      s.sescmd_count + 1 := by
  simp only [route_session_write]

theorem route_session_write_ok (s : RWSplitSession) (wf : Bool)
    (buf : GWBUF) (command : Nat) (qtype : TypeMask) :
    ((route_session_write s wf buf command qtype).ok = true ↔
      ∃ b ∈ s.backends, b.in_use = true ∧ b.exec_ok = true) := by
  simp only [route_session_write]
  rw [broadcastGo_nsucc]
  simp only [Nat.zero_add, bne_iff_ne, ne_eq, ← Nat.pos_iff_ne_zero,
    List.countP_pos_iff, Bool.and_eq_true]

theorem route_session_write_list_mem (s : RWSplitSession) (wf : Bool)
    (buf : GWBUF) (command : Nat) (qtype : TypeMask) :
    ∀ c ∈ (route_session_write s wf buf command qtype).s.sescmd_list,
      c ∈ s.sescmd_list ∨
        c = { position := s.sescmd_count, command := command,
              payload := buf.payload } := by
  intro c hc
  simp only [route_session_write] at hc
  repeat' split at hc
  all_goals
    first
    | cases hc
    | exact Or.inl hc
    | (rcases List.mem_append.mp hc with h1 | h1
       · first
         | exact Or.inl (purge_history_subset h1)
         | exact absurd (purge_history_subset h1) (List.not_mem_nil _)
       · exact Or.inr (List.mem_singleton.mp h1))

theorem route_session_write_resp_mem (s : RWSplitSession) (wf : Bool)
    (buf : GWBUF) (command : Nat) (qtype : TypeMask) :
    ∀ kv ∈ (route_session_write s wf buf command qtype).s.sescmd_responses,
      kv ∈ s.sescmd_responses := by
  intro kv hkv
  simp only [route_session_write] at hkv
  repeat' split at hkv
  all_goals
    first
    | exact pruneResponses_subset hkv
    | exact (List.mem_filter.mp hkv).1
    | exact hkv

/-- C2: a session write draws the fresh position `sescmd_count`, strictly
above every position already recorded in the session, appends the new
command to the session-command queue of every in-use backend, preserves the
position invariant, and reports success exactly when some in-use backend
executed the command. -/
theorem C2_route_session_write (s : RWSplitSession) (wf : Bool) (buf : GWBUF)
    (command : Nat) (qtype : TypeMask) (h : posInv s) :
    (route_session_write s wf buf command qtype).s.backends =
      s.backends.map (fun b =>
        if b.in_use then
          { b with sescmds := b.sescmds ++
              [{ position := s.sescmd_count, command := command,
                 payload := buf.payload }] }
        else b) ∧
    (∀ c ∈ s.sescmd_list, c.position < s.sescmd_count) ∧
    (∀ b ∈ s.backends, ∀ c ∈ b.sescmds, c.position < s.sescmd_count) ∧
    posInv (route_session_write s wf buf command qtype).s ∧
    ((route_session_write s wf buf command qtype).ok = true ↔
      ∃ b ∈ s.backends, b.in_use = true ∧ b.exec_ok = true) := by
  obtain ⟨hl, hb, hr⟩ := h
  refine ⟨route_session_write_backends s wf buf command qtype, hl, hb, ?_,
    route_session_write_ok s wf buf command qtype⟩
  rw [posInv]
  rw [route_session_write_count, route_session_write_backends]
  refine ⟨?_, ?_, ?_⟩
  · intro c hc
    rcases route_session_write_list_mem s wf buf command qtype c hc with h1 | h1
    · exact Nat.lt_succ_of_lt (hl c h1)
    · rw [h1]; exact Nat.lt_succ_self _
  · intro b' hb' c hc
    rcases List.mem_map.mp hb' with ⟨b, hbmem, rfl⟩
    by_cases hu : b.in_use = true
    · simp only [hu, if_true] at hc
      rcases List.mem_append.mp hc with h1 | h1
      · exact Nat.lt_succ_of_lt (hb b hbmem c h1)
      · rw [List.mem_singleton.mp h1]; exact Nat.lt_succ_self _
    · simp only [hu, if_false, Bool.false_eq_true] at hc
      exact Nat.lt_succ_of_lt (hb b hbmem c hc)
  · intro kv hkv
    exact Nat.lt_succ_of_lt
      (hr kv (route_session_write_resp_mem s wf buf command qtype kv hkv))

/-- Router session with one in-use backend that executes successfully. -/
def c2_sess : RWSplitSession :=
  { sess0 with backends :=
      [{ (default : RWBackend) with id := 1, in_use := true, exec_ok := true }] }

/-- Witness for C2: its position-invariant hypothesis holds at a concrete
session, at which the session write reports success. -/
theorem C2_witness :
    posInv c2_sess ∧
    ((route_session_write c2_sess true buf0 MXS_COM_QUERY tm00).ok = true ↔
      ∃ b ∈ c2_sess.backends, b.in_use = true ∧ b.exec_ok = true) :=
  ⟨by unfold posInv; decide,
   (C2_route_session_write c2_sess true buf0 MXS_COM_QUERY tm00
      (by unfold posInv; decide)).2.2.2.2⟩

/-- C4 (amended): when `max_sescmd_history` is positive and the history
length has reached it, the session write clears the history, latches
`disable_sescmd_history`, zeroes the limit, warns only when the process-wide
static latch is still set (clearing the latch), and continues with success
still determined only by backend execution; and in disabled-history mode
each session write rewrites the stored responses through `pruneResponses`,
which drops the entries below the lowest pending per-backend position only
when some stored entry is at or above it. -/
theorem C4_history_limit (s : RWSplitSession) (wf : Bool) (buf : GWBUF)
    (command : Nat) (qtype : TypeMask) :
    (0 < s.rses_config.max_sescmd_history →
     s.rses_config.max_sescmd_history ≤ s.sescmd_list.length →
      (route_session_write s wf buf command qtype).s.sescmd_list = [] ∧
      (route_session_write s wf buf command qtype).s.rses_config.disable_sescmd_history
        = true ∧
      (route_session_write s wf buf command qtype).s.rses_config.max_sescmd_history
        = 0 ∧
      (route_session_write s wf buf command qtype).warned = wf ∧
      (route_session_write s wf buf command qtype).warn_flag = false ∧
      (route_session_write s wf buf command qtype).s.sescmd_responses =
        pruneResponses s.sescmd_responses
          (broadcastGo
            { position := s.sescmd_count, command := command,
              payload := buf.payload }
            s.backends s.sescmd_count 0).2.1 ∧
      ((route_session_write s wf buf command qtype).ok = true ↔
        ∃ b ∈ s.backends, b.in_use = true ∧ b.exec_ok = true)) ∧
    (s.rses_config.disable_sescmd_history = true →
     s.rses_config.max_sescmd_history = 0 →
      (route_session_write s wf buf command qtype).s.sescmd_responses =
        pruneResponses s.sescmd_responses
          (broadcastGo
            { position := s.sescmd_count, command := command,
              payload := buf.payload }
            s.backends s.sescmd_count 0).2.1 ∧
      (route_session_write s wf buf command qtype).s.sescmd_list =
        s.sescmd_list) := by
  constructor
  · intro h1 h2
    refine ⟨?_, ?_, ?_, ?_, ?_, ?_,
      route_session_write_ok s wf buf command qtype⟩
    all_goals simp [route_session_write, h1, h2]
  · intro h1 h2
    constructor
    all_goals simp [route_session_write, h1, h2]

/-- Disabled-history session whose only stored response lies below the
lowest pending position. -/
def c4a_sess : RWSplitSession :=
  { sess0 with
      rses_config :=
        { cfg0 with disable_sescmd_history := true, max_sescmd_history := 0 },
      sescmd_count := 5,
      sescmd_responses := [(0, 7)],
      backends :=
        [{ (default : RWBackend) with id := 1, in_use := true, exec_ok := true }] }

/-- Session that exceeds a configured history limit of 1. -/
def c4b_sess : RWSplitSession :=
  { sess0 with
      rses_config := { cfg0 with max_sescmd_history := 1 },
      sescmd_count := 1,
      sescmd_list := [{ position := 0, command := 3, payload := "a" }] }

/-- Counterexample for C4 as stated: in disabled-history mode a session
write leaves a stored response whose position 0 lies below the lowest
pending per-backend position 5 (the prune is skipped when every stored
response is below the bound); and a session that exceeds the history limit
emits no warning when the process-wide static latch was already cleared by
an earlier session, against "once per session". -/
theorem C4_counterexample :
    ((route_session_write c4a_sess true buf0 MXS_COM_QUERY tm00).s.sescmd_responses
        = [(0, 7)] ∧
      (broadcastGo
        { position := 5, command := MXS_COM_QUERY, payload := "q" }
        c4a_sess.backends 5 0).2.1 = 5) ∧
    ((route_session_write c4b_sess false buf0 MXS_COM_QUERY tm00).warned = false ∧
      0 < c4b_sess.rses_config.max_sescmd_history ∧
      c4b_sess.rses_config.max_sescmd_history ≤ c4b_sess.sescmd_list.length) := by
  decide

/-- Witness for C4: both hypothesis groups of `C4_history_limit` are
satisfiable at concrete sessions. -/
theorem C4_witness :
    (0 < c4b_sess.rses_config.max_sescmd_history ∧
     c4b_sess.rses_config.max_sescmd_history ≤ c4b_sess.sescmd_list.length ∧
     (route_session_write c4b_sess true buf0 MXS_COM_QUERY tm00).s.sescmd_list
       = []) ∧
    (c4a_sess.rses_config.disable_sescmd_history = true ∧
     (route_session_write c4a_sess true buf0 MXS_COM_QUERY tm00).s.sescmd_list =
       c4a_sess.sescmd_list) :=
  ⟨⟨by decide, by decide,
    ((C4_history_limit c4b_sess true buf0 MXS_COM_QUERY tm00).1
      (by decide) (by decide)).1⟩,
   ⟨by decide,
    ((C4_history_limit c4a_sess true buf0 MXS_COM_QUERY tm00).2
      (by decide) (by decide)).2⟩⟩

/-! ## Facts about prepare_target (claim C5) -/

/-- Slave route target. -/
def rt_slave : RouteTarget :=
  { is_master := false, is_slave := true, is_named_server := false,
    is_all := false, is_rlag_max := false }

/-- Session with disabled history, one executed session command, and an
unused but connectable slave backend. -/
def c5_sess : RWSplitSession :=
  { sess0 with
      rses_config := { cfg0 with disable_sescmd_history := true },
      recv_sescmd := 1,
      backends :=
        [{ (default : RWBackend) with
           id := 1, in_use := false, can_connect := true, status_slave := true,
           connect_ok := true }] }

/-- C5 failing input evaluated: with session-command history disabled and
one session command already executed, `prepare_target` on an unused,
connectable slave target makes no connection attempt (the session is
unchanged, the backend stays out of use) yet reports `true` instead of
failing the routing decision — the error branch logs "Cannot reconnect to
server ..." but never sets `rval = false`. -/
theorem C5_prepare_target_eval :
    prepare_target c5_sess 1 rt_slave = (c5_sess, true) ∧
    (lookupB c5_sess 1).in_use = false ∧
    (lookupB c5_sess 1).can_connect = true ∧
    c5_sess.rses_config.disable_sescmd_history = true ∧
    c5_sess.recv_sescmd = 1 := by
  decide

/-! ## Facts about slave selection (claim C10) -/

/-- The admission test of the first candidate of `get_slave_backend`: a
master-or-slave backend within the lag bound that is a slave or the current
master. -/
def firstCandP (cm : Option Nat) (max_rlag : Int) (b : RWBackend) : Bool :=
  ((b.status_master || b.status_slave) && rpl_lag_is_ok b max_rlag) &&
    ((b.status_master && cm == some b.id) || b.status_slave)

theorem compare_backends_cases (cmp : RWBackend → RWBackend → Int)
    (a b : RWBackend) :
    compare_backends cmp (some a) (some b) = some a ∨
    compare_backends cmp (some a) (some b) = some b := by
  by_cases h : cmp a b ≤ 0 <;> simp [compare_backends, h]

theorem slave_candidate_go_cons_some (cm : Option Nat) (accept : Bool)
    (maxc conn : Nat) (cmp : RWBackend → RWBackend → Int) (max_rlag : Int)
    (b : RWBackend) (bs : List RWBackend) (r1 : RWBackend) :
    slave_candidate_go cm accept maxc conn cmp max_rlag (b :: bs) (some r1) =
      slave_candidate_go cm accept maxc conn cmp max_rlag bs
        (if (b.status_master || b.status_slave) && rpl_lag_is_ok b max_rlag then
           if b.in_use || conn < maxc then
             if !accept && r1.status_master then some b
             else compare_backends cmp (some r1) (some b)
           else some r1
         else some r1) := rfl

theorem slave_candidate_go_cons_none (cm : Option Nat) (accept : Bool)
    (maxc conn : Nat) (cmp : RWBackend → RWBackend → Int) (max_rlag : Int)
    (b : RWBackend) (bs : List RWBackend) :
    slave_candidate_go cm accept maxc conn cmp max_rlag (b :: bs) none =
      slave_candidate_go cm accept maxc conn cmp max_rlag bs
        (if (b.status_master || b.status_slave) && rpl_lag_is_ok b max_rlag then
           if (b.status_master && cm == some b.id) || b.status_slave then some b
           else none
         else none) := rfl

theorem slave_candidate_go_roleLag_some (cm : Option Nat) (accept : Bool)
    (maxc conn : Nat) (cmp : RWBackend → RWBackend → Int) (max_rlag : Int) :
    ∀ (bs : List RWBackend) (r1 : RWBackend),
      ((r1.status_master || r1.status_slave) && rpl_lag_is_ok r1 max_rlag) = true →
      ∀ r, slave_candidate_go cm accept maxc conn cmp max_rlag bs (some r1) = some r →
        ((r.status_master || r.status_slave) && rpl_lag_is_ok r max_rlag) = true := by
  intro bs
  induction bs with
  | nil =>
    intro r1 h1 r hr
    simp only [slave_candidate_go, Option.some.injEq] at hr
    rwa [← hr]
  | cons b bs ih =>
    intro r1 h1 r hr
    rw [slave_candidate_go_cons_some] at hr
    split at hr
    next hcond =>
      split at hr
      next hadm =>
        split at hr
        next hrep => exact ih b hcond r hr
        next hrep =>
          rcases compare_backends_cases cmp r1 b with hc | hc <;> rw [hc] at hr
          · exact ih r1 h1 r hr
          · exact ih b hcond r hr
      next hadm => exact ih r1 h1 r hr
    next hcond => exact ih r1 h1 r hr

theorem slave_candidate_go_roleLag_none (cm : Option Nat) (accept : Bool)
    (maxc conn : Nat) (cmp : RWBackend → RWBackend → Int) (max_rlag : Int) :
    ∀ (bs : List RWBackend),
      ∀ r, slave_candidate_go cm accept maxc conn cmp max_rlag bs none = some r →
        ((r.status_master || r.status_slave) && rpl_lag_is_ok r max_rlag) = true := by
  intro bs
  induction bs with
  | nil =>
    intro r hr
    simp [slave_candidate_go] at hr
  | cons b bs ih =>
    intro r hr
    rw [slave_candidate_go_cons_none] at hr
    split at hr
    next hcond =>
      split at hr
      next hacc =>
        exact slave_candidate_go_roleLag_some cm accept maxc conn cmp max_rlag
          bs b hcond r hr
      next hacc => exact ih r hr
    next hcond => exact ih r hr

theorem slave_candidate_go_admit_some (cm : Option Nat) (accept : Bool)
    (maxc conn : Nat) (cmp : RWBackend → RWBackend → Int) (max_rlag : Int)
    (Q : RWBackend → Prop) :
    ∀ (bs : List RWBackend) (r1 : RWBackend),
      (r1.in_use = true ∨ conn < maxc ∨ Q r1) →
      ∀ r, slave_candidate_go cm accept maxc conn cmp max_rlag bs (some r1) = some r →
        (r.in_use = true ∨ conn < maxc ∨ Q r) := by
  intro bs
  induction bs with
  | nil =>
    intro r1 h1 r hr
    simp only [slave_candidate_go, Option.some.injEq] at hr
    rwa [← hr]
  | cons b bs ih =>
    intro r1 h1 r hr
    rw [slave_candidate_go_cons_some] at hr
    split at hr
    next hcond =>
      split at hr
      next hadm =>
        have hb : b.in_use = true ∨ conn < maxc ∨ Q b := by
          rcases Bool.or_eq_true _ _ |>.mp hadm with h | h
          · exact Or.inl h
          · exact Or.inr (Or.inl (by simpa using h))
        split at hr
        next hrep => exact ih b hb r hr
        next hrep =>
          rcases compare_backends_cases cmp r1 b with hc | hc <;> rw [hc] at hr
          · exact ih r1 h1 r hr
          · exact ih b hb r hr
      next hadm => exact ih r1 h1 r hr
    next hcond => exact ih r1 h1 r hr

theorem slave_candidate_go_admit_none (cm : Option Nat) (accept : Bool)
    (maxc conn : Nat) (cmp : RWBackend → RWBackend → Int) (max_rlag : Int) :
    ∀ (bs : List RWBackend),
      ∀ r, slave_candidate_go cm accept maxc conn cmp max_rlag bs none = some r →
        (r.in_use = true ∨ conn < maxc ∨
          bs.find? (firstCandP cm max_rlag) = some r) := by
  intro bs
  induction bs with
  | nil =>
    intro r hr
    simp [slave_candidate_go] at hr
  | cons b bs ih =>
    intro r hr
    rw [slave_candidate_go_cons_none] at hr
    split at hr
    next hcond =>
      split at hr
      next hacc =>
        have hfc : firstCandP cm max_rlag b = true := by
          simp [firstCandP, hcond, hacc]
        have h1 := slave_candidate_go_admit_some cm accept maxc conn cmp
          max_rlag (fun x => x = b) bs b (Or.inr (Or.inr rfl)) r hr
        rcases h1 with h1 | h1 | rfl
        · exact Or.inl h1
        · exact Or.inr (Or.inl h1)
        · exact Or.inr (Or.inr (by rw [List.find?_cons_of_pos _ hfc]))
      next hacc =>
        have h2 : ((b.status_master && cm == some b.id) || b.status_slave) = false := by
          simpa using hacc
        have hfc : firstCandP cm max_rlag b = false := by
          simp [firstCandP, h2]
        rcases ih r hr with h1 | h1 | h1
        · exact Or.inl h1
        · exact Or.inr (Or.inl h1)
        · refine Or.inr (Or.inr ?_)
          rw [List.find?_cons_of_neg _ (by simp [hfc])]
          exact h1
    next hcond =>
      have h2 : ((b.status_master || b.status_slave) && rpl_lag_is_ok b max_rlag) = false := by
        simpa using hcond
      have hfc : firstCandP cm max_rlag b = false := by
        simp [firstCandP, h2]
      rcases ih r hr with h1 | h1 | h1
      · exact Or.inl h1
      · exact Or.inr (Or.inl h1)
      · refine Or.inr (Or.inr ?_)
        rw [List.find?_cons_of_neg _ (by simp [hfc])]
        exact h1

/-- C10 (amended): a backend returned by `get_slave_backend` is a master or
slave whose replication lag passes `rpl_lag_is_ok` (unlimited when the
maximum is undefined); and it is in use, or the connected-slave count is
below `max_slave_count`, or it is the first admissible candidate of the
scan — the first candidate is admitted regardless of connection state,
`master_accept_reads`, and the slave count. -/
theorem C10_get_slave_backend (s : RWSplitSession)
    (cmp : RWBackend → RWBackend → Int) (max_rlag : Int) (r : RWBackend)
    (h : get_slave_backend s cmp max_rlag = some r) :
    (r.status_master || r.status_slave) = true ∧
    rpl_lag_is_ok r max_rlag = true ∧
    (r.in_use = true ∨
      slaves_connected s.backends < s.rses_config.max_slave_count ∨
      s.backends.find? (firstCandP s.current_master max_rlag) = some r) := by
  simp only [get_slave_backend] at h
  have h1 := slave_candidate_go_roleLag_none s.current_master
    s.rses_config.master_accept_reads s.rses_config.max_slave_count
    (slaves_connected s.backends) cmp max_rlag s.backends r h
  have h2 := slave_candidate_go_admit_none s.current_master
    s.rses_config.master_accept_reads s.rses_config.max_slave_count
    (slaves_connected s.backends) cmp max_rlag s.backends r h
  rcases Bool.and_eq_true _ _ |>.mp h1 with ⟨h1a, h1b⟩
  exact ⟨h1a, h1b, h2⟩

/-- Trivial selection criterion for concrete runs. -/
def cmp0 : RWBackend → RWBackend → Int := fun _ _ => 0

/-- A current master, in use and lag-free. -/
def c10a_master : RWBackend :=
  { (default : RWBackend) with
    id := 0, in_use := true, status_master := true, rlag := 0 }

/-- Session whose only backend is the current master, with
`master_accept_reads = false`. -/
def c10a_sess : RWSplitSession :=
  { sess0 with backends := [c10a_master], current_master := some 0 }

/-- An in-use slave lagging by 100. -/
def c10b_slaveA : RWBackend :=
  { (default : RWBackend) with
    id := 1, in_use := true, status_slave := true, rlag := 100 }

/-- An unused connectable slave with no lag. -/
def c10b_slaveB : RWBackend :=
  { (default : RWBackend) with
    id := 2, in_use := false, can_connect := true, status_slave := true,
    rlag := 0 }

/-- Session at its slave cap whose only lag-admissible slave is unused. -/
def c10b_sess : RWSplitSession :=
  { sess0 with
      backends := [c10b_slaveA, c10b_slaveB],
      rses_config := { cfg0 with max_slave_count := 1 } }

/-- Counterexample for C10 as stated: with `master_accept_reads = false` the
selection still returns the master when it is the only candidate; and an
unused backend is admitted as the first candidate although the session's
slave count has reached `max_slave_count`. -/
theorem C10_counterexample :
    (get_slave_backend c10a_sess cmp0 MAX_RLAG_UNDEFINED = some c10a_master ∧
     c10a_master.status_master = true ∧
     c10a_sess.rses_config.master_accept_reads = false) ∧
    (get_slave_backend c10b_sess cmp0 10 = some c10b_slaveB ∧
     c10b_slaveB.in_use = false ∧
     c10b_sess.rses_config.max_slave_count ≤
       slaves_connected c10b_sess.backends) := by
  decide

/-- Witness for C10: the hypothesis of `C10_get_slave_backend` holds at a
concrete selection. -/
theorem C10_witness :
    get_slave_backend c10a_sess cmp0 MAX_RLAG_UNDEFINED = some c10a_master ∧
    ((c10a_master.status_master || c10a_master.status_slave) = true ∧
     rpl_lag_is_ok c10a_master MAX_RLAG_UNDEFINED = true ∧
     (c10a_master.in_use = true ∨
       slaves_connected c10a_sess.backends <
         c10a_sess.rses_config.max_slave_count ∨
       c10a_sess.backends.find?
         (firstCandP c10a_sess.current_master MAX_RLAG_UNDEFINED) =
           some c10a_master)) :=
  ⟨by decide,
   C10_get_slave_backend c10a_sess cmp0 MAX_RLAG_UNDEFINED c10a_master
     (by decide)⟩

/-- Session-write packet holding a COM_STMT_PREPARE with payload "p". -/
def c1_buf : GWBUF :=
  { buf0 with command := MXS_COM_STMT_PREPARE, payload := "p" }

/-- Type bits marking `c1_buf` as a prepare statement. -/
def c1_tm : TypeMask := { prepare_named_stmt := false, prepare_stmt := true }

/-- The session after three `route_session_write` appends of identical
COM_STMT_PREPARE packets. -/
def c1_run : RWSplitSession :=
  (route_session_write
    (route_session_write
      (route_session_write sess0 true c1_buf MXS_COM_STMT_PREPARE c1_tm).s
      true c1_buf MXS_COM_STMT_PREPARE c1_tm).s
    true c1_buf MXS_COM_STMT_PREPARE c1_tm).s

/-- Counterexample for C1 as stated: three appends of textually identical
COM_STMT_PREPARE session commands retain all three copies, so two retained
commands with equal textual payload have a third equal command between
them. -/
theorem C1_counterexample :
    c1_run.sescmd_list =
      [{ position := 0, command := MXS_COM_STMT_PREPARE, payload := "p" },
       { position := 1, command := MXS_COM_STMT_PREPARE, payload := "p" },
       { position := 2, command := MXS_COM_STMT_PREPARE, payload := "p" }] ∧
    ¬ purge_law c1_run.sescmd_list := by
  refine ⟨by decide, ?_⟩
  intro hlaw
  have h := hlaw []
    { position := 0, command := MXS_COM_STMT_PREPARE, payload := "p" } []
    { position := 1, command := MXS_COM_STMT_PREPARE, payload := "p" } []
    { position := 2, command := MXS_COM_STMT_PREPARE, payload := "p" } []
    (by decide) (by decide)
  exact absurd h (by decide)

/-! ## Facts about master failure handling (claim C9) -/

theorem find?_close_in_use (m : Nat) :
    ∀ bs : List RWBackend,
      ((((bs.map (fun b => if b.id == m then closeB b else b)).find?
          (fun b => b.id == m)).getD default).in_use) = false := by
  intro bs
  induction bs with
  | nil => rfl
  | cons b bs ih =>
    by_cases hb : (b.id == m) = true
    · simp only [List.map_cons, hb, if_true]
      rw [List.find?_cons_of_pos _ (by simpa [closeB] using hb)]
      simp [closeB]
    · simp only [List.map_cons, hb, if_false, Bool.false_eq_true]
      rw [List.find?_cons_of_neg _ (by simpa using hb)]
      exact ih

/-- C9 (amended): when no valid current-master connection is available,
`error_on_write` replies to the client with a read-only error (reporting the
outcome of that client write) and closes any lingering in-use primary
connection; `fail_on_write` (like `fail_instantly`) reports routing failure
and leaves the session state — including a lingering primary — untouched. -/
theorem C9_master_failure_modes (s : RWSplitSession)
    (cmp : RWBackend → RWBackend → Int)
    (h : get_target_backend s BackendType.be_master none MAX_RLAG_UNDEFINED cmp
          = none) :
    (s.rses_config.master_failure_mode = FailureMode.error_on_write →
      (handle_master_is_target s cmp).2.2 = s.client_write_ok ∧
      (∀ m, s.current_master = some m →
        (lookupB (handle_master_is_target s cmp).1 m).in_use = false)) ∧
    (s.rses_config.master_failure_mode = FailureMode.fail_on_write →
      handle_master_is_target s cmp = (s, none, false)) := by
  constructor
  · intro hmode
    constructor
    · simp [handle_master_is_target, h, should_replace_master, hmode,
        send_readonly_error]
    · intro m hm
      have hstep : (handle_master_is_target s cmp).1 =
          (if (lookupB s m).in_use = true then updateB s m closeB else s) := by
        simp [handle_master_is_target, h, should_replace_master, hmode, hm]
      rw [hstep]
      by_cases hin : (lookupB s m).in_use = true
      · rw [if_pos hin]
        simp only [updateB, lookupB]
        exact find?_close_in_use m s.backends
      · rw [if_neg hin]
        simpa using hin
  · intro hmode
    simp [handle_master_is_target, h, should_replace_master, hmode]

/-- Lingering in-use primary connection whose server lost the master role. -/
def c9_backend : RWBackend :=
  { (default : RWBackend) with
    id := 0, in_use := true, write_ok := true }

/-- Session under `fail_on_write` whose master is gone. -/
def c9_sess : RWSplitSession :=
  { sess0 with
      backends := [c9_backend],
      current_master := some 0,
      rses_config :=
        { cfg0 with master_failure_mode := FailureMode.fail_on_write } }

/-- Session under `error_on_write` whose master is gone. -/
def c9e_sess : RWSplitSession :=
  { sess0 with
      backends := [c9_backend],
      current_master := some 0,
      rses_config :=
        { cfg0 with master_failure_mode := FailureMode.error_on_write } }

/-- Counterexample for C9 as stated: under `fail_on_write` with no valid
master, the routing reports failure and the lingering in-use primary
connection is left open — the close of the lingering primary happens in the
`error_on_write` branch instead. -/
theorem C9_counterexample :
    handle_master_is_target c9_sess cmp0 = (c9_sess, none, false) ∧
    (lookupB c9_sess 0).in_use = true ∧
    c9_sess.rses_config.master_failure_mode = FailureMode.fail_on_write := by
  decide

/-- Witness for C9: the no-valid-master hypothesis holds at concrete
sessions for both failure modes. -/
theorem C9_witness :
    get_target_backend c9e_sess BackendType.be_master none MAX_RLAG_UNDEFINED
      cmp0 = none ∧
    c9e_sess.rses_config.master_failure_mode = FailureMode.error_on_write ∧
    (handle_master_is_target c9e_sess cmp0).2.2 = c9e_sess.client_write_ok ∧
    (lookupB (handle_master_is_target c9e_sess cmp0).1 0).in_use = false :=
  ⟨by decide, by decide,
   ((C9_master_failure_modes c9e_sess cmp0 (by decide)).1 (by decide)).1,
   ((C9_master_failure_modes c9e_sess cmp0 (by decide)).1 (by decide)).2 0
     (by decide)⟩

/-! ## Facts about read-only transaction pinning (claim C8) -/

/-- C8: inside a read-only transaction the first routed statement pins its
backend as `target_node` (also when the write fails), `get_target_backend`
returns the pinned backend for every later statement of the transaction,
and a successfully written statement that ends the read-only transaction
clears the pin. -/
theorem C8_read_only_trx_pin (s : RWSplitSession) (buf : GWBUF) (t : Nat)
    (store : Bool) (btype : BackendType) (name : Option String)
    (max_rlag : Int) (cmp : RWBackend → RWBackend → Int) (t0 : Nat) :
    (s.target_node = none → s.trx_read_only = true → s.trx_ending = false →
      (handle_got_target s buf t store).1.target_node = some t) ∧
    (s.target_node = some t0 → s.trx_read_only = true →
      get_target_backend s btype name max_rlag cmp = some t0) ∧
    (s.trx_read_only = true → s.trx_ending = true →
      (lookupB s t).write_ok = true →
      (handle_got_target s buf t store).1.target_node = none) := by
  refine ⟨?_, ?_, ?_⟩
  · intro h1 h2 h3
    by_cases hw : (lookupB s t).write_ok = true <;>
      simp [handle_got_target, h1, h2, h3, hw]
  · intro h1 h2
    simp [get_target_backend, h1, h2]
  · intro h1 h2 hw
    rcases htn : s.target_node with _ | x <;>
      simp [handle_got_target, h1, h2, hw, htn]

/-- Read-only transaction session: no pin yet, one writable backend. -/
def c8_sess : RWSplitSession :=
  { sess0 with
      trx_read_only := true,
      backends :=
        [{ (default : RWBackend) with
           id := 3, in_use := true, status_slave := true, write_ok := true }] }

/-- Witness for C8: at a concrete read-only transaction the first statement
pins backend 3, later lookups return the pin, and the ending statement
clears it. -/
theorem C8_witness :
    c8_sess.target_node = none ∧ c8_sess.trx_read_only = true ∧
    (handle_got_target c8_sess buf0 3 false).1.target_node = some 3 ∧
    get_target_backend { c8_sess with target_node := some 3 }
      BackendType.be_slave none MAX_RLAG_UNDEFINED cmp0 = some 3 ∧
    (handle_got_target { c8_sess with trx_ending := true }
      buf0 3 false).1.target_node = none :=
  ⟨by decide, by decide,
   (C8_read_only_trx_pin c8_sess buf0 3 false BackendType.be_slave none
      MAX_RLAG_UNDEFINED cmp0 0).1 (by decide) (by decide) (by decide),
   (C8_read_only_trx_pin { c8_sess with target_node := some 3 } buf0 3 false
      BackendType.be_slave none MAX_RLAG_UNDEFINED cmp0 3).2.1
     (by decide) (by decide),
   (C8_read_only_trx_pin { c8_sess with trx_ending := true } buf0 3 false
      BackendType.be_slave none MAX_RLAG_UNDEFINED cmp0 0).2.2
     (by decide) (by decide) (by decide)⟩

/-! ## Facts about route_single_stmt dispatch (claims C3, C6, C7) -/

theorem find?_write_update (t : Nat) (sb : GWBUF) (rs : Bool) :
    ∀ bs : List RWBackend,
      (bs.map (fun b =>
          if b.id == t then
            { b with written := b.written ++ [sb],
                     reply_state :=
                       if rs then ReplyState.start else b.reply_state }
          else b)).find? (fun b => b.id == t) =
        (bs.find? (fun b => b.id == t)).map (fun b =>
          { b with written := b.written ++ [sb],
                   reply_state :=
                     if rs then ReplyState.start else b.reply_state }) := by
  intro bs
  induction bs with
  | nil => rfl
  | cons b bs ih =>
    cases hb : (b.id == t)
    · simp only [List.map_cons, hb, Bool.false_eq_true, if_false]
      rw [List.find?_cons, List.find?_cons]
      simp only [hb]
      exact ih
    · simp only [List.map_cons, hb, if_true]
      rw [List.find?_cons, List.find?_cons]
      simp only [hb]
      rfl

theorem handle_got_target_succ (s : RWSplitSession) (buf : GWBUF) (t : Nat)
    (store : Bool) (hw : (lookupB s t).write_ok = true) :
    (handle_got_target s buf t store).2 = true := by
  simp [handle_got_target, hw]

theorem handle_got_target_written (s : RWSplitSession) (buf : GWBUF)
    (t : Nat) (store : Bool) (hw : (lookupB s t).write_ok = true) :
    (lookupB (handle_got_target s buf t store).1 t).written =
      (lookupB s t).written ++
        [if buf.command == MXS_COM_QUERY && s.rses_config.enable_causal_read
            && s.gtid_pos != "" then add_prefix_wait_gtid buf else buf] := by
  simp only [handle_got_target, hw, if_true]
  simp only [lookupB]
  rw [find?_write_update]
  rcases hfind : s.backends.find? (fun b => b.id == t) with _ | b
  · have hww : (default : RWBackend).write_ok = false := rfl
    simp only [lookupB, hfind] at hw
    simp [hww] at hw
  · simp only [lookupB, hfind]
    rfl

theorem route_single_stmt_got (s : RWSplitSession) (wf : Bool) (buf : GWBUF)
    (info : RouteInfo) (cmp : RWBackend → RWBackend → Int)
    (s1 : RWSplitSession) (t : Nat) (st : Bool) (s2 s3 : RWSplitSession)
    (ok2 : Bool)
    (hall : info.target.is_all = false)
    (hres : resolve_target s (rewritten_querybuf s buf info) info cmp =
      (s1, true, some t, st))
    (hpt : prepare_target s1 t info.target = (s2, true))
    (hpend : have_session_commands (lookupB s2 t) = false)
    (hg : handle_got_target s2 (rewritten_querybuf s buf info) t st =
      (s3, ok2)) :
    route_single_stmt s wf buf info cmp =
      ((if ok2 && (info.command == MXS_COM_STMT_EXECUTE) &&
            !locked_to_master s then
          { s3 with exec_map := map_insert s3.exec_map info.stmt_id t }
        else s3), ok2, wf) := by
  simp only [route_single_stmt, hall, Bool.false_eq_true, if_false, hres,
    hpt, hpend, hg, handle_connection_keepalive]
  simp

theorem route_single_stmt_deferral (s : RWSplitSession) (wf : Bool)
    (buf : GWBUF) (info : RouteInfo) (cmp : RWBackend → RWBackend → Int)
    (s1 : RWSplitSession) (t : Nat) (st : Bool) (s2 : RWSplitSession)
    (hall : info.target.is_all = false)
    (hres : resolve_target s (rewritten_querybuf s buf info) info cmp =
      (s1, true, some t, st))
    (hpt : prepare_target s1 t info.target = (s2, true))
    (hpend : have_session_commands (lookupB s2 t) = true) :
    route_single_stmt s wf buf info cmp =
      ({ s2 with expected_responses := s2.expected_responses + 1,
                 query_queue :=
                   s2.query_queue ++ [rewritten_querybuf s buf info] },
       true, wf) := by
  simp only [route_single_stmt, hall, Bool.false_eq_true, if_false, hres,
    hpt, hpend, handle_connection_keepalive]
  simp

/-- C3: when the resolved target still has pending session commands after
`prepare_target`, the routing call does not write the statement: it
increments `expected_responses` by one, clones the packet onto the query
queue, reports success, and the target backend's stream of written packets
is untouched. -/
theorem C3_deferred_on_pending_sescmd (s : RWSplitSession) (wf : Bool)
    (buf : GWBUF) (info : RouteInfo) (cmp : RWBackend → RWBackend → Int)
    (s1 : RWSplitSession) (t : Nat) (st : Bool) (s2 : RWSplitSession)
    (hall : info.target.is_all = false)
    (hres : resolve_target s (rewritten_querybuf s buf info) info cmp =
      (s1, true, some t, st))
    (hpt : prepare_target s1 t info.target = (s2, true))
    (hpend : have_session_commands (lookupB s2 t) = true) :
    route_single_stmt s wf buf info cmp =
      ({ s2 with expected_responses := s2.expected_responses + 1,
                 query_queue :=
                   s2.query_queue ++ [rewritten_querybuf s buf info] },
       true, wf) ∧
    (lookupB (route_single_stmt s wf buf info cmp).1 t).written =
      (lookupB s2 t).written := by
  have hmain := route_single_stmt_deferral s wf buf info cmp s1 t st s2
    hall hres hpt hpend
  refine ⟨hmain, ?_⟩
  rw [hmain]
  simp [lookupB]

/-- Slave backend with one pending session command. -/
def c3_backend : RWBackend :=
  { (default : RWBackend) with
    id := 4, in_use := true, status_slave := true, write_ok := true,
    sescmds := [{ position := 0, command := 3, payload := "set" }] }

/-- Session whose only backend still has a pending session command. -/
def c3_sess : RWSplitSession :=
  { sess0 with backends := [c3_backend] }

/-- Classified COM_QUERY read, slave target. -/
def c3_info : RouteInfo :=
  { stmt_id := 0, command := MXS_COM_QUERY, qtype := tm00, target := rt_slave }

/-- Witness for C3: the hypotheses hold at a concrete routing call, which
defers the packet. -/
theorem C3_witness :
    resolve_target c3_sess (rewritten_querybuf c3_sess buf0 c3_info) c3_info
        cmp0 = (c3_sess, true, some 4, false) ∧
    prepare_target c3_sess 4 c3_info.target = (c3_sess, true) ∧
    have_session_commands (lookupB c3_sess 4) = true ∧
    route_single_stmt c3_sess true buf0 c3_info cmp0 =
      ({ c3_sess with
           expected_responses := c3_sess.expected_responses + 1,
           query_queue :=
             c3_sess.query_queue ++
               [rewritten_querybuf c3_sess buf0 c3_info] }, true, true) :=
  ⟨by decide, by decide, by decide,
   (C3_deferred_on_pending_sescmd c3_sess true buf0 c3_info cmp0 c3_sess 4
      false c3_sess (by decide) (by decide) (by decide) (by decide)).1⟩

/-- C7: a COM_STMT_FETCH whose statement id is recorded in the `ExecMap`
targets the recorded backend without a warning; an unrecorded id warns and
falls back to ordinary SLAVE selection; and a successfully routed
COM_STMT_EXECUTE (not locked to the master) records its target in the
`ExecMap` for the statement id. -/
theorem C7_stmt_fetch_affinity :
    (∀ (s : RWSplitSession) (stmt_id bid : Nat)
        (cmp : RWBackend → RWBackend → Int),
        map_lookup s.exec_map stmt_id = some bid →
        handle_slave_is_target s MXS_COM_STMT_FETCH stmt_id cmp =
          (some bid, false)) ∧
    (∀ (s : RWSplitSession) (stmt_id : Nat)
        (cmp : RWBackend → RWBackend → Int),
        map_lookup s.exec_map stmt_id = none →
        handle_slave_is_target s MXS_COM_STMT_FETCH stmt_id cmp =
          (get_target_backend s BackendType.be_slave none
            (get_max_replication_lag s) cmp, true)) ∧
    (∀ (s : RWSplitSession) (wf : Bool) (buf : GWBUF) (info : RouteInfo)
        (cmp : RWBackend → RWBackend → Int) (s1 : RWSplitSession) (t : Nat)
        (st : Bool) (s2 s3 : RWSplitSession),
        info.target.is_all = false →
        resolve_target s (rewritten_querybuf s buf info) info cmp =
          (s1, true, some t, st) →
        prepare_target s1 t info.target = (s2, true) →
        have_session_commands (lookupB s2 t) = false →
        handle_got_target s2 (rewritten_querybuf s buf info) t st =
          (s3, true) →
        info.command = MXS_COM_STMT_EXECUTE →
        locked_to_master s = false →
        (route_single_stmt s wf buf info cmp).1.exec_map =
          map_insert s3.exec_map info.stmt_id t) := by
  refine ⟨?_, ?_, ?_⟩
  · intro s stmt_id bid cmp h
    simp [handle_slave_is_target, h]
  · intro s stmt_id cmp h
    simp [handle_slave_is_target, h]
  · intro s wf buf info cmp s1 t st s2 s3 hall hres hpt hpend hg hcmd hlock
    have hroute := route_single_stmt_got s wf buf info cmp s1 t st s2 s3 true
      hall hres hpt hpend hg
    rw [hroute]
    simp [hcmd, hlock]

/-- Session with an ExecMap entry mapping statement id 7 to backend 4. -/
def c7_sess : RWSplitSession :=
  { sess0 with exec_map := [(7, 4)] }

/-- Witness for C7: a recorded id is routed to the recorded backend with no
warning, and an unknown id warns and falls back to slave selection. -/
theorem C7_witness :
    map_lookup c7_sess.exec_map 7 = some 4 ∧
    handle_slave_is_target c7_sess MXS_COM_STMT_FETCH 7 cmp0 =
      (some 4, false) ∧
    map_lookup c7_sess.exec_map 9 = none ∧
    handle_slave_is_target c7_sess MXS_COM_STMT_FETCH 9 cmp0 =
      (get_target_backend c7_sess BackendType.be_slave none
        (get_max_replication_lag c7_sess) cmp0, true) :=
  ⟨by decide, C7_stmt_fetch_affinity.1 c7_sess 7 4 cmp0 (by decide),
   by decide, C7_stmt_fetch_affinity.2.1 c7_sess 9 cmp0 (by decide)⟩

/-- C6: a packet is large exactly when its wire length is the 4-byte header
plus the 2^24 - 1 maximum payload; writing a large packet remembers the
target as `prev_target` and raises the large-query flag; while the flag is
set the resolution phase reuses `prev_target` for the continuation packet,
and the continuation is delivered to that same backend; a short packet
clears `prev_target` and drops the flag. -/
theorem C6_large_query_affinity :
    (∀ buf : GWBUF, is_large_query buf = true ↔
        buf.length = MYSQL_HEADER_LEN + GW_MYSQL_MAX_PACKET_LEN) ∧
    (∀ (s : RWSplitSession) (buf : GWBUF) (t : Nat) (store : Bool),
        (lookupB s t).write_ok = true → is_large_query buf = true →
        (handle_got_target s buf t store).1.prev_target = some t ∧
        (handle_got_target s buf t store).1.large_query = true) ∧
    (∀ (s : RWSplitSession) (buf : GWBUF) (info : RouteInfo)
        (cmp : RWBackend → RWBackend → Int),
        s.large_query = true →
        resolve_target s buf info cmp = (s, true, s.prev_target, false)) ∧
    (∀ (s : RWSplitSession) (wf : Bool) (buf : GWBUF) (info : RouteInfo)
        (cmp : RWBackend → RWBackend → Int) (t : Nat) (s2 : RWSplitSession),
        s.large_query = true → s.prev_target = some t →
        info.target.is_all = false →
        prepare_target s t info.target = (s2, true) →
        have_session_commands (lookupB s2 t) = false →
        (lookupB s2 t).write_ok = true →
        ∃ sb, (lookupB (route_single_stmt s wf buf info cmp).1 t).written =
          (lookupB s2 t).written ++ [sb]) ∧
    (∀ (s : RWSplitSession) (buf : GWBUF) (t : Nat) (store : Bool),
        (lookupB s t).write_ok = true → is_large_query buf = false →
        (handle_got_target s buf t store).1.prev_target = none ∧
        (handle_got_target s buf t store).1.large_query = false) := by
  refine ⟨?_, ?_, ?_, ?_, ?_⟩
  · intro buf
    simp [is_large_query]
  · intro s buf t store hw hlq
    simp [handle_got_target, hw, hlq]
  · intro s buf info cmp hlq
    simp [resolve_target, hlq]
  · intro s wf buf info cmp t s2 hlq hprev hall hpt hpend hw
    have hres : resolve_target s (rewritten_querybuf s buf info) info cmp =
        (s, true, some t, false) := by
      simp [resolve_target, hlq, hprev]
    have hg2 : (handle_got_target s2 (rewritten_querybuf s buf info) t
        false).2 = true := handle_got_target_succ _ _ _ _ hw
    have hg : handle_got_target s2 (rewritten_querybuf s buf info) t false =
        ((handle_got_target s2 (rewritten_querybuf s buf info) t false).1,
          true) := by
      rw [← hg2]
    have hroute := route_single_stmt_got s wf buf info cmp s t false s2 _
      true hall hres hpt hpend hg
    have hwr := handle_got_target_written s2 (rewritten_querybuf s buf info)
      t false hw
    refine ⟨(if (rewritten_querybuf s buf info).command == MXS_COM_QUERY &&
        s2.rses_config.enable_causal_read && s2.gtid_pos != "" then
          add_prefix_wait_gtid (rewritten_querybuf s buf info)
        else rewritten_querybuf s buf info), ?_⟩
    simp only [hroute]
    split
    · simpa [lookupB] using hwr
    · exact hwr
  · intro s buf t store hw hlq
    simp [handle_got_target, hw, hlq]

/-- Writable slave backend for large-query runs. -/
def c6_backend : RWBackend :=
  { (default : RWBackend) with
    id := 5, in_use := true, status_slave := true, write_ok := true }

/-- Session holding the large-query backend. -/
def c6_sess : RWSplitSession :=
  { sess0 with backends := [c6_backend] }

/-- The same session in the middle of a large query pinned to backend 5. -/
def c6lq_sess : RWSplitSession :=
  { c6_sess with large_query := true, prev_target := some 5 }

/-- A maximum-length wire packet. -/
def c6_buf : GWBUF :=
  { buf0 with length := MYSQL_HEADER_LEN + GW_MYSQL_MAX_PACKET_LEN }

/-- Classified continuation info, slave target. -/
def c6_info : RouteInfo :=
  { stmt_id := 0, command := MXS_COM_QUERY, qtype := tm00, target := rt_slave }

/-- Witness for C6: a concrete maximum-length packet sets the pin, the
pinned continuation resolves to the remembered backend, and a short packet
clears the pin. -/
theorem C6_witness :
    (lookupB c6_sess 5).write_ok = true ∧
    is_large_query c6_buf = true ∧
    (handle_got_target c6_sess c6_buf 5 false).1.prev_target = some 5 ∧
    resolve_target c6lq_sess buf0 c6_info cmp0 =
      (c6lq_sess, true, some 5, false) ∧
    (handle_got_target c6_sess buf0 5 false).1.prev_target = none :=
  ⟨by decide, by decide,
   (C6_large_query_affinity.2.1 c6_sess c6_buf 5 false (by decide)
      (by decide)).1,
   by
     have h := C6_large_query_affinity.2.2.1 c6lq_sess buf0 c6_info cmp0
       (by decide)
     rw [h]
     rfl,
   (C6_large_query_affinity.2.2.2.2 c6_sess buf0 5 false (by decide)
      (by decide)).1⟩

end MaxScale
